import Mathlib

/-!
Shallow embedding of the NextStop relay server (src/nextstop-relay/server.js),
the canonical relay implementation per the design notes.  Inbound frames are
modelled as JSON values, the process-wide maps (rooms, latestTelemetry, names,
routeMeta) as functions from keys to optional values, per-socket metadata as a
function from connection ids, and the observable socket writes and closes as an
effect list returned by each handler step.
-/

namespace NextStop

/-- A JavaScript number: either NaN or an actual (rational-modelled) value. -/
inductive JNum where
  | nan : JNum
  | val : ℚ → JNum
deriving DecidableEq, Repr

/-- A parsed JSON value, as produced by JSON.parse on the relay's inbound text frames. -/
inductive JVal where
  | jnull : JVal
  | jbool : Bool → JVal
  | jnum : JNum → JVal
  | jstr : String → JVal
  | jarr : List JVal → JVal
  | jobj : List (String × JVal) → JVal

/-- JavaScript truthiness of a value (used by the guards `!msg`, `if (announcedName)`, ...). -/
def jsTruthy : JVal → Bool
  | JVal.jnull => false
  | JVal.jbool b => b
  | JVal.jnum JNum.nan => false
  | JVal.jnum (JNum.val q) => q ≠ 0
  | JVal.jstr s => s ≠ ""
  | JVal.jarr _ => true
  | JVal.jobj _ => true

/-- Whether `typeof v` is the string "object" in JavaScript (null and arrays included). -/
def jsObjType : JVal → Bool
  | JVal.jnull => true
  | JVal.jarr _ => true
  | JVal.jobj _ => true
  | _ => false

/-- The combined guard `msg && typeof msg === "object"`. -/
def jsTruthyObj (v : JVal) : Bool := jsTruthy v && jsObjType v

/-- Property access `v.k`: a field of an object, undefined (none) otherwise. -/
def JVal.get : JVal → String → Option JVal
  | JVal.jobj fields, k => fields.lookup k
  | _, _ => none

/-- Strict equality `v.k === s` of a property against a string literal. -/
def strictStr (v : Option JVal) (s : String) : Bool :=
  match v with
  | some (JVal.jstr t) => t = s
  | _ => false

/-- The property as a string when `typeof v.k === "string"`, none otherwise. -/
def strField (msg : JVal) (k : String) : Option String :=
  match msg.get k with
  | some (JVal.jstr s) => some s
  | _ => none

/-- JavaScript String.prototype.trim, modelled structurally over the character
list: strip leading and trailing whitespace. -/
def jsTrim (s : String) : String :=
  String.mk (((s.data.dropWhile Char.isWhitespace).reverse.dropWhile
    Char.isWhitespace).reverse)

/-- Whether the property is a non-blank string: `typeof x === "string" && x.trim() !== ""`. -/
def isNonBlankStr (msg : JVal) (k : String) : Bool :=
  match msg.get k with
  | some (JVal.jstr s) => jsTrim s ≠ ""
  | _ => false

/-- The property as a non-NaN number (`typeof x === "number" && !Number.isNaN(x)`). -/
def numField (msg : JVal) (k : String) : Option ℚ :=
  match msg.get k with
  | some (JVal.jnum (JNum.val q)) => some q
  | _ => none

/-- Whether the property is a non-NaN number. -/
def isGoodNum (msg : JVal) (k : String) : Bool := (numField msg k).isSome

/-- Whether an optional numeric property is admissible:
`x === undefined || (typeof x === "number" && !Number.isNaN(x))`. -/
def optNumOk (msg : JVal) (k : String) : Bool :=
  match msg.get k with
  | none => true
  | some (JVal.jnum (JNum.val _)) => true
  | _ => false

/-- The pattern `typeof x === "string" ? x.trim() : ""` used for the optional
displayName / routeId / direction fields. -/
def announced (msg : JVal) (k : String) : String :=
  match msg.get k with
  | some (JVal.jstr s) => jsTrim s
  | _ => ""

/-- validateHello from server.js: returns the error string, or none on acceptance. -/
def validateHello (msg : JVal) : Option String :=
  if ¬ jsTruthyObj msg then some "Payload must be object"
  else if ¬ strictStr (msg.get "type") "hello" then some "Expected type \"hello\""
  else if ¬ (strictStr (msg.get "role") "driver" || strictStr (msg.get "role") "viewer") then
    some "Role must be driver or viewer"
  else if ¬ isNonBlankStr msg "deviceId" then some "deviceId required"
  else none

/-- validateTelemetry from server.js: returns the error string, or none on acceptance. -/
def validateTelemetry (msg : JVal) : Option String :=
  if ¬ jsTruthyObj msg then some "Payload must be object"
  else if ¬ strictStr (msg.get "type") "telemetry" then some "Expected type \"telemetry\""
  else if ¬ isNonBlankStr msg "deviceId" then some "deviceId required"
  else if ¬ isGoodNum msg "lat" then some "lat must be number"
  else if ¬ isGoodNum msg "lng" then some "lng must be number"
  else if ¬ isGoodNum msg "ts" then some "ts must be number"
  else if ¬ optNumOk msg "speed" then some "speed must be number"
  else if ¬ optNumOk msg "heading" then some "heading must be number"
  else none

/-- Token-bucket state attached to a driver connection's meta (tokens, last-touched ms). -/
structure RateBucket where
  tokens : ℚ
  last : ℚ
deriving DecidableEq, Repr

/-- Per-socket metadata, the ws.meta object. -/
structure ConnMeta where
  role : Option String
  deviceId : Option String
  rate : Option RateBucket
deriving DecidableEq, Repr

/-- A room: at most one driver connection and the set of viewer connections. -/
structure Room where
  driver : Option Nat
  viewers : List Nat
deriving DecidableEq, Repr

/-- Remembered route metadata for a deviceId. -/
structure RouteEntry where
  routeId : Option String
  direction : Option String
deriving DecidableEq, Repr

/-- The outbound telemetry payload object built by the telemetry handler;
also the stored snapshot in latestTelemetry. -/
structure TelemetryPayload where
  deviceId : String
  lat : ℚ
  lng : ℚ
  ts : ℚ
  speed : Option ℚ
  heading : Option ℚ
  displayName : Option String
  routeId : Option String
  direction : Option String
deriving DecidableEq, Repr

/-- An outbound frame written to a socket. -/
inductive Frame where
  | error (e : String)
  | info (message : String)
  | helloAck (role deviceId : String) (displayName routeId direction : Option String)
  | telemetry (p : TelemetryPayload)
deriving DecidableEq, Repr

/-- An observable socket effect: a JSON frame sent, or a close with code and reason. -/
inductive Effect where
  | send (c : Nat) (f : Frame)
  | close (c : Nat) (code : Nat) (reason : String)
deriving DecidableEq, Repr

/-- The whole in-memory server state: the four process-wide maps, each socket's
meta object, and whether each socket is in the OPEN ready state. -/
structure ServerState where
  rooms : String → Option Room
  latestTelemetry : String → Option TelemetryPayload
  names : String → Option String
  routeMeta : String → Option RouteEntry
  meta : Nat → ConnMeta
  isOpen : Nat → Bool

/-- Point update of a string-keyed map. -/
def upd {α : Type} (m : String → Option α) (k : String) (v : Option α) :
    String → Option α :=
  fun x => if x = k then v else m x

/-- Point update of the per-connection meta table. -/
def updMeta (m : Nat → ConnMeta) (c : Nat) (v : ConnMeta) : Nat → ConnMeta :=
  fun x => if x = c then v else m x

/-- sendJson: writes the frame only when the socket is OPEN. -/
def sendJson (st : ServerState) (c : Nat) (f : Frame) : List Effect :=
  if st.isOpen c then [Effect.send c f] else []

/-- ws.close(code, reason): the socket leaves the OPEN state and a close effect is emitted. -/
def closeSock (st : ServerState) (c : Nat) (code : Nat) (reason : String) :
    ServerState × List Effect :=
  ({ st with isOpen := fun x => if x = c then false else st.isOpen x },
   [Effect.close c code reason])

/-- removeSocketFromRoom from server.js: clears the driver slot or viewer membership
of the connection's current room, and deletes the room together with its telemetry
snapshot when it becomes driver-less and viewer-less. -/
def removeSocketFromRoom (st : ServerState) (c : Nat) : ServerState :=
  match (st.meta c).deviceId with
  | none => st
  | some d =>
    if d = "" then st
    else
      match st.rooms d with
      | none => st
      | some room =>
        let room1 :=
          if (st.meta c).role = some "driver" ∧ room.driver = some c then
            { room with driver := none }
          else if (st.meta c).role = some "viewer" then
            { room with viewers := room.viewers.erase c }
          else room
        if room1.driver = none ∧ room1.viewers = [] then
          { st with rooms := upd st.rooms d none,
                    latestTelemetry := upd st.latestTelemetry d none }
        else
          { st with rooms := upd st.rooms d (some room1) }

/-- ensureRoom from server.js: fetches the room, creating an empty one if absent. -/
def ensureRoom (st : ServerState) (d : String) : ServerState × Room :=
  match st.rooms d with
  | some r => (st, r)
  | none =>
    ({ st with rooms := upd st.rooms d (some (Room.mk none [])) }, Room.mk none [])

/-- assignSocketToRoom from server.js: detach-first assignment of a connection to the
room of a deviceId with the given role; a different prior driver is closed with
1001 "driver replaced"; a viewer gets the stored telemetry snapshot on subscribe. -/
def assignSocketToRoom (st : ServerState) (c : Nat) (d : String) (role : String) :
    ServerState × List Effect :=
  let st1 := removeSocketFromRoom st c
  let er := ensureRoom st1 d
  let st2 := er.1
  let room := er.2
  let st3 := { st2 with
    meta := updMeta st2.meta c { st2.meta c with deviceId := some d, role := some role } }
  if role = "driver" then
    match room.driver with
    | some prev =>
      if prev ≠ c then
        let q := closeSock st3 prev 1001 "driver replaced"
        ({ q.1 with rooms := upd q.1.rooms d (some { room with driver := some c }) }, q.2)
      else
        ({ st3 with rooms := upd st3.rooms d (some { room with driver := some c }) }, [])
    | none =>
      ({ st3 with rooms := upd st3.rooms d (some { room with driver := some c }) }, [])
  else
    let room2 := { room with
      viewers := if c ∈ room.viewers then room.viewers else room.viewers ++ [c] }
    let st4 := { st3 with rooms := upd st3.rooms d (some room2) }
    match st4.latestTelemetry d with
    | some snap => (st4, sendJson st4 c (Frame.telemetry snap))
    | none => (st4, [])

/-- The telemetry rate limit constant (tokens per second and bucket capacity). -/
def TELEMETRY_LIMIT_PER_SEC : ℚ := 5

/-- initRateLimiter: a missing bucket starts full, last-touched now. -/
def initRate (r : Option RateBucket) (now : ℚ) : RateBucket :=
  match r with
  | some b => b
  | none => ⟨TELEMETRY_LIMIT_PER_SEC, now⟩

/-- consumeRateToken from server.js: top up by elapsed milliseconds / 1000 * 5 capped at
capacity, then consume one token if at least one is available. -/
def consumeRateToken (r : Option RateBucket) (now : ℚ) : RateBucket × Bool :=
  let bucket := initRate r now
  let elapsed := now - bucket.last
  let tokens := min TELEMETRY_LIMIT_PER_SEC
    (bucket.tokens + elapsed / 1000 * TELEMETRY_LIMIT_PER_SEC)
  if tokens < 1 then (⟨tokens, now⟩, false) else (⟨tokens - 1, now⟩, true)

/-- The `if (s) then some s else keep` pattern of a truthiness check on an optional string. -/
def truthyOpt : Option String → Option String
  | some s => if s = "" then none else some s
  | none => none

/-- The routeMeta merge pattern shared by the hello and telemetry handlers:
`routeMeta.set(deviceId, { routeId: announced || prev?.routeId, direction: ... })`
guarded by `if (announcedRoute || announcedDirection)`.  Returns the entry written,
or none when the guard fails and the map is left untouched. -/
def mergeRouteEntry (prev : Option RouteEntry) (r dir : String) : Option RouteEntry :=
  if r ≠ "" ∨ dir ≠ "" then
    some { routeId := if r ≠ "" then some r else prev.bind RouteEntry.routeId,
           direction := if dir ≠ "" then some dir else prev.bind RouteEntry.direction }
  else none

/-- Apply the guarded routeMeta merge to the map. -/
def applyRouteMerge (m : String → Option RouteEntry) (d r dir : String) :
    String → Option RouteEntry :=
  match mergeRouteEntry (m d) r dir with
  | some e => upd m d (some e)
  | none => m

/-- The names merge pattern shared by the hello and telemetry handlers:
`if (announcedName) names.set(deviceId, announcedName)`. -/
def applyNameMerge (m : String → Option String) (d nm : String) :
    String → Option String :=
  if nm ≠ "" then upd m d (some nm) else m

/-- The routeMeta entry visible after the guarded merge
(`routeMeta.get(deviceId)` re-read after the conditional set). -/
def mergedEntry (prev : Option RouteEntry) (r dir : String) : Option RouteEntry :=
  match mergeRouteEntry prev r dir with
  | some e => some e
  | none => prev

/-- The hello branch of the message handler: validate, assign to room, merge the
announced displayName / routeId / direction into Device Memory, reply hello-ack. -/
def handleHello (st : ServerState) (c : Nat) (msg : JVal) : ServerState × List Effect :=
  match validateHello msg with
  | some e => (st, sendJson st c (Frame.error e))
  | none =>
    let role := (strField msg "role").getD ""
    let d := (strField msg "deviceId").getD ""
    let ar := assignSocketToRoom st c d role
    let st1 := ar.1
    let announcedName := announced msg "displayName"
    let announcedRoute := announced msg "routeId"
    let announcedDirection := announced msg "direction"
    let rm := mergedEntry (st1.routeMeta d) announcedRoute announcedDirection
    let st3 := { st1 with
      names := applyNameMerge st1.names d announcedName,
      routeMeta := applyRouteMerge st1.routeMeta d announcedRoute announcedDirection }
    let ack := Frame.helloAck role d
      (if announcedName ≠ "" then some announcedName else none)
      (truthyOpt (rm.bind RouteEntry.routeId))
      (truthyOpt (rm.bind RouteEntry.direction))
    (st3, ar.2 ++ sendJson st3 c ack)

/-- The outbound telemetry payload object built by the telemetry handler from the
message fields merged with the Device Memory of the message's deviceId
(explicit non-blank fields win and the re-read routeMeta entry fills the rest). -/
def telemetryPayloadOf (st1 : ServerState) (msg : JVal) : TelemetryPayload :=
  let d := (strField msg "deviceId").getD ""
  let incomingName := announced msg "displayName"
  let incomingRoute := announced msg "routeId"
  let incomingDirection := announced msg "direction"
  let rememberedMeta := mergedEntry (st1.routeMeta d) incomingRoute incomingDirection
  { deviceId := d,
    lat := (numField msg "lat").getD 0,
    lng := (numField msg "lng").getD 0,
    ts := (numField msg "ts").getD 0,
    speed := numField msg "speed",
    heading := numField msg "heading",
    displayName :=
      if incomingName ≠ "" then some incomingName else truthyOpt (st1.names d),
    routeId :=
      if incomingRoute ≠ "" then some incomingRoute
      else truthyOpt (rememberedMeta.bind RouteEntry.routeId),
    direction :=
      if incomingDirection ≠ "" then some incomingDirection
      else truthyOpt (rememberedMeta.bind RouteEntry.direction) }

/-- The accepted-telemetry tail of the message handler, applied to the state in
which the rate bucket has already been charged: build the outbound payload merged
with Device Memory, update the Device Memory maps, store the payload as the
snapshot and broadcast it to the room's viewers. -/
def acceptTelemetry (st1 : ServerState) (msg : JVal) : ServerState × List Effect :=
  let d := (strField msg "deviceId").getD ""
  let payload := telemetryPayloadOf st1 msg
  let st2 := { st1 with
    names := applyNameMerge st1.names d (announced msg "displayName"),
    routeMeta := applyRouteMerge st1.routeMeta d
      (announced msg "routeId") (announced msg "direction"),
    latestTelemetry := upd st1.latestTelemetry d (some payload) }
  let er := ensureRoom st2 d
  let st3 := er.1
  let room := er.2
  (st3, room.viewers.filterMap (fun v =>
    if st3.isOpen v then some (Effect.send v (Frame.telemetry payload)) else none))

/-- The telemetry branch of the message handler: authorize (driver role, matching
deviceId), validate, rate-limit, then run the accepted-telemetry tail. -/
def handleTelemetry (st : ServerState) (c : Nat) (msg : JVal) (now : ℚ) :
    ServerState × List Effect :=
  if (st.meta c).role ≠ some "driver" then
    (st, sendJson st c (Frame.error "Only drivers may send telemetry"))
  else
    match validateTelemetry msg with
    | some e => (st, sendJson st c (Frame.error e))
    | none =>
      if strField msg "deviceId" ≠ (st.meta c).deviceId then
        (st, sendJson st c (Frame.error "Driver must send telemetry for subscribed deviceId"))
      else
        let rb := consumeRateToken (st.meta c).rate now
        let st1 := { st with meta := updMeta st.meta c { st.meta c with rate := some rb.1 } }
        if rb.2 = false then (st1, []) else acceptTelemetry st1 msg

/-- The full on-message handler: JSON parse result (none = malformed), the
object guard, then the hello / telemetry / unsupported dispatch. -/
def handleMessage (st : ServerState) (c : Nat) (raw : Option JVal) (now : ℚ) :
    ServerState × List Effect :=
  match raw with
  | none => (st, sendJson st c (Frame.error "Invalid JSON"))
  | some msg =>
    if ¬ jsTruthyObj msg then (st, sendJson st c (Frame.error "Payload must be object"))
    else if strictStr (msg.get "type") "hello" then handleHello st c msg
    else if strictStr (msg.get "type") "telemetry" then handleTelemetry st c msg now
    else (st, sendJson st c (Frame.error "Unsupported message type"))

/-- The on-close / on-error handler: the socket is no longer OPEN and is
removed from its room. -/
def handleClose (st : ServerState) (c : Nat) : ServerState :=
  removeSocketFromRoom
    { st with isOpen := fun x => if x = c then false else st.isOpen x } c

/-- The state of a freshly started relay process with the given sockets open. -/
def initialState (openSet : Nat → Bool) : ServerState :=
  { rooms := fun _ => none,
    latestTelemetry := fun _ => none,
    names := fun _ => none,
    routeMeta := fun _ => none,
    meta := fun _ => ⟨none, none, none⟩,
    isOpen := openSet }

/-- A minimal hello message with the given role and deviceId. -/
def helloMsg (role d : String) : JVal :=
  JVal.jobj [("type", JVal.jstr "hello"), ("role", JVal.jstr role),
             ("deviceId", JVal.jstr d)]

/-- A hello message that also announces a displayName. -/
def helloMsgName (role d nm : String) : JVal :=
  JVal.jobj [("type", JVal.jstr "hello"), ("role", JVal.jstr role),
             ("deviceId", JVal.jstr d), ("displayName", JVal.jstr nm)]

/-- A minimal telemetry message for a deviceId with the given coordinates. -/
def telemetryMsg (d : String) (lat lng ts : ℚ) : JVal :=
  JVal.jobj [("type", JVal.jstr "telemetry"), ("deviceId", JVal.jstr d),
             ("lat", JVal.jnum (JNum.val lat)), ("lng", JVal.jnum (JNum.val lng)),
             ("ts", JVal.jnum (JNum.val ts))]

/-- Fresh relay state with all sockets open: the common test scenario start. -/
def stEmpty : ServerState := initialState (fun _ => true)

/-- Scenario state: connection 1 has completed a driver hello for "bus-1". -/
def stDrv1 : ServerState := (handleMessage stEmpty 1 (some (helloMsg "driver" "bus-1")) 0).1

/-- Scenario state: after the driver hello, connection 1 sent an accepted
telemetry message for "bus-1". -/
def stDrv1Telem : ServerState :=
  (handleMessage stDrv1 1 (some (telemetryMsg "bus-1" 29 (-82) 1000)) 500).1

/-- Scenario state: the driver of "bus-1" then disconnected, emptying the room. -/
def stPurged : ServerState := handleClose stDrv1Telem 1

/-- Scenario state: connection 1 completed a driver hello for "bus-1" announcing
displayName "Alice". -/
def stSession1 : ServerState :=
  (handleMessage stEmpty 1 (some (helloMsgName "driver" "bus-1" "Alice")) 0).1

/-- Scenario state: the named driver session ended; "Alice" stays in Device Memory. -/
def stNamed : ServerState := handleClose stSession1 1

/-- A hello announcing both a displayName and a routeId. -/
def helloFullMsg : JVal :=
  JVal.jobj [("type", JVal.jstr "hello"), ("role", JVal.jstr "driver"),
             ("deviceId", JVal.jstr "bus-1"), ("displayName", JVal.jstr "Alice"),
             ("routeId", JVal.jstr "R7")]

/-- Scenario state: a driver session for "bus-1" announced displayName "Alice" and
routeId "R7", then disconnected; both survive in Device Memory, the room is gone. -/
def stMemory : ServerState :=
  handleClose (handleMessage stEmpty 1 (some helloFullMsg) 0).1 1

/-- A hello announcing displayName, routeId and direction. -/
def helloDirMsg : JVal :=
  JVal.jobj [("type", JVal.jstr "hello"), ("role", JVal.jstr "driver"),
             ("deviceId", JVal.jstr "bus-1"), ("displayName", JVal.jstr "Alice"),
             ("routeId", JVal.jstr "R7"), ("direction", JVal.jstr "north")]

/-- Scenario state: a driver session for "bus-1" announced displayName "Alice",
routeId "R7" and direction "north", then disconnected; all three survive in
Device Memory while the room is gone. -/
def stMemoryDir : ServerState :=
  handleClose (handleMessage stEmpty 1 (some helloDirMsg) 0).1 1

/-- Scenario state: connection 0 is a driver for "bus-1" whose rate bucket holds
only half a token. -/
def stLowTokens : ServerState :=
  { stEmpty with
    meta := updMeta stEmpty.meta 0 ⟨some "driver", some "bus-1", some ⟨(1 : ℚ)/2, 0⟩⟩ }

/-- Scenario state: connection 5 has completed a viewer hello for "bus-1". -/
def stViewer5 : ServerState :=
  (handleMessage stEmpty 5 (some (helloMsg "viewer" "bus-1")) 0).1

/-- A concrete telemetry snapshot payload for witness scenarios. -/
def pay1 : TelemetryPayload :=
  ⟨"bus-1", 29, -82, 1000, none, none, none, none, none⟩

/-- Scenario state: a room for "bus-1" holding only viewer 5, with a stored
telemetry snapshot left over from a disconnected driver. -/
def stSnap : ServerState :=
  { stEmpty with
    rooms := upd stEmpty.rooms "bus-1" (some (Room.mk none [5])),
    latestTelemetry := upd stEmpty.latestTelemetry "bus-1" (some pay1),
    meta := updMeta stEmpty.meta 5 ⟨some "viewer", some "bus-1", none⟩ }

/-- A value stored by a Device Memory merge: non-empty and a trim of some input. -/
def StoredStr (s : String) : Prop := s ≠ "" ∧ ∃ t : String, s = jsTrim t

/-- The Device Memory invariant: every displayName and every routeId / direction
kept in the names and routeMeta maps is a non-empty trimmed string. -/
def DMInv (st : ServerState) : Prop :=
  (∀ d s, st.names d = some s → StoredStr s) ∧
  (∀ d e, st.routeMeta d = some e →
    (∀ s, e.routeId = some s → StoredStr s) ∧
    (∀ s, e.direction = some s → StoredStr s))

theorem strictStr_ne {v : Option JVal} {s t : String}
    (h : strictStr v s = true) (hne : t ≠ s) : strictStr v t = false := by
  unfold strictStr at *
  match v with
  | none => simp at h
  | some (JVal.jstr u) =>
    simp only [decide_eq_true_eq] at h
    subst h
    simpa using Ne.symm hne
  | some JVal.jnull | some (JVal.jbool _) | some (JVal.jnum _)
  | some (JVal.jarr _) | some (JVal.jobj _) => simp at h

theorem validateTelemetry_none_facts {msg : JVal} (h : validateTelemetry msg = none) :
    jsTruthyObj msg = true ∧ strictStr (msg.get "type") "telemetry" = true ∧
      isNonBlankStr msg "deviceId" = true := by
  unfold validateTelemetry at h
  repeat' split at h
  all_goals simp_all

/-- C2: in the canonical relay a hello that fails validation is answered with an
error frame but the socket is NOT closed: at this concrete input the whole effect
list is a single error send, with no close effect, and the sender's socket is
still open afterwards — refuting the claimed forced close. -/
theorem C2_counterexample :
    (handleMessage stEmpty 0 (some (helloMsg "pilot" "bus-1")) 0).2
      = [Effect.send 0 (Frame.error "Role must be driver or viewer")]
    ∧ (handleMessage stEmpty 0 (some (helloMsg "pilot" "bus-1")) 0).1.isOpen 0 = true :=
  ⟨rfl, rfl⟩

theorem remove_fresh (st : ServerState) (c : Nat)
    (h : (st.meta c).deviceId = none) : removeSocketFromRoom st c = st := by
  unfold removeSocketFromRoom
  rw [h]

theorem handleMessage_hello (st : ServerState) (c : Nat) (msg : JVal) (now : ℚ)
    (hobj : jsTruthyObj msg = true)
    (hty : strictStr (msg.get "type") "hello" = true) :
    handleMessage st c (some msg) now = handleHello st c msg := by
  simp [handleMessage, hobj, hty]

theorem handleMessage_telemetry (st : ServerState) (c : Nat) (msg : JVal) (now : ℚ)
    (hobj : jsTruthyObj msg = true)
    (hty : strictStr (msg.get "type") "telemetry" = true) :
    handleMessage st c (some msg) now = handleTelemetry st c msg now := by
  have hh : strictStr (msg.get "type") "hello" = false := strictStr_ne hty (by decide)
  simp [handleMessage, hobj, hty, hh]

theorem assign_driver_replace_eq (st : ServerState) (c prev : Nat) (d : String)
    (room : Room) (hroom : st.rooms d = some room) (hdrv : room.driver = some prev)
    (hne : prev ≠ c) (hfresh : (st.meta c).deviceId = none) :
    assignSocketToRoom st c d "driver"
      = ({ st with
            rooms := upd st.rooms d (some (Room.mk (some c) room.viewers)),
            meta := updMeta st.meta c
              { st.meta c with deviceId := some d, role := some "driver" },
            isOpen := fun x => if x = prev then false else st.isOpen x },
         [Effect.close prev 1001 "driver replaced"]) := by
  have hrm := remove_fresh st c hfresh
  unfold assignSocketToRoom
  rw [hrm]
  simp [ensureRoom, hroom, hdrv, hne, closeSock]

theorem remove_keeps_other_driver (st : ServerState) (c prev : Nat) (d : String)
    (room : Room) (hroom : st.rooms d = some room) (hdrv : room.driver = some prev)
    (hne : prev ≠ c) :
    ∃ room2, (removeSocketFromRoom st c).rooms d = some room2
      ∧ room2.driver = some prev := by
  unfold removeSocketFromRoom
  cases hmd : (st.meta c).deviceId with
  | none => exact ⟨room, hroom, hdrv⟩
  | some d2 =>
    dsimp only
    by_cases hd2 : d2 = ""
    · rw [if_pos hd2]
      exact ⟨room, hroom, hdrv⟩
    · rw [if_neg hd2]
      cases hr2 : st.rooms d2 with
      | none => exact ⟨room, hroom, hdrv⟩
      | some room0 =>
        dsimp only
        by_cases hdd : d = d2
        · subst hdd
          rw [hroom] at hr2
          injection hr2 with hr2
          subst hr2
          have hnotc : ¬ ((st.meta c).role = some "driver" ∧ room.driver = some c) := by
            rintro ⟨-, hcontra⟩
            rw [hdrv] at hcontra
            exact hne (Option.some_injective _ hcontra)
          rw [if_neg hnotc]
          by_cases hv : (st.meta c).role = some "viewer"
          · rw [if_pos hv]
            rw [if_neg (by simp [hdrv])]
            exact ⟨{ room with viewers := room.viewers.erase c }, by simp [upd], hdrv⟩
          · rw [if_neg hv]
            rw [if_neg (by simp [hdrv])]
            exact ⟨room, by simp [upd], hdrv⟩
        · refine ⟨room, ?_, hdrv⟩
          repeat' split
          all_goals simpa [upd, hdd] using hroom

/-- C1: assigning a driver hello to a room whose driver slot is held by a
different connection emits exactly one close, with code 1001 and reason
"driver replaced", aimed at that prior connection; afterwards the room's single
driver slot holds the new connection, so exactly one driver occupies the room. -/
theorem C1_driver_uniqueness (st : ServerState) (c prev : Nat) (d : String)
    (room : Room) (hroom : st.rooms d = some room) (hdrv : room.driver = some prev)
    (hne : prev ≠ c) :
    (assignSocketToRoom st c d "driver").2 = [Effect.close prev 1001 "driver replaced"]
    ∧ ∃ vs, (assignSocketToRoom st c d "driver").1.rooms d = some (Room.mk (some c) vs) := by
  obtain ⟨room2, hr2, hd2⟩ := remove_keeps_other_driver st c prev d room hroom hdrv hne
  refine ⟨?_, room2.viewers, ?_⟩ <;>
    simp [assignSocketToRoom, ensureRoom, hr2, hd2, hne, closeSock, upd]

theorem C1_driver_uniqueness_witness :
    (stDrv1.rooms "bus-1" = some (Room.mk (some 1) []) ∧ (1 : Nat) ≠ 2)
    ∧ ((assignSocketToRoom stDrv1 2 "bus-1" "driver").2
         = [Effect.close 1 1001 "driver replaced"]
       ∧ ∃ vs, (assignSocketToRoom stDrv1 2 "bus-1" "driver").1.rooms "bus-1"
           = some (Room.mk (some 2) vs)) :=
  ⟨⟨rfl, by decide⟩,
   C1_driver_uniqueness stDrv1 2 1 "bus-1" (Room.mk (some 1) []) rfl rfl (by decide)⟩

/-- C3: in the canonical relay the displaced first driver receives NO info frame:
at this concrete input the whole effect list is the close of the first driver
followed by the hello-ack to the second — no `info` send to connection 1 occurs,
even though its socket is still open — refuting the claimed info notification.
The second driver does become the room's driver. -/
theorem C3_counterexample :
    (handleMessage stDrv1 2 (some (helloMsg "driver" "bus-1")) 0).2
      = [Effect.close 1 1001 "driver replaced",
         Effect.send 2 (Frame.helloAck "driver" "bus-1" none none none)]
    ∧ stDrv1.isOpen 1 = true
    ∧ (handleMessage stDrv1 2 (some (helloMsg "driver" "bus-1")) 0).1.rooms "bus-1"
        = some (Room.mk (some 2) []) :=
  ⟨rfl, rfl, rfl⟩

/-- C3 (amended): when a second driver sends hello for a deviceId while the first
driver's socket is open, the first driver receives no frame at all: it is closed
with code 1001 "driver replaced" and the only other effect is the hello-ack to
the second driver, which becomes the room's driver. -/
theorem C3_driver_replaced_no_info (st : ServerState) (c prev : Nat) (d : String)
    (room : Room) (now : ℚ)
    (hroom : st.rooms d = some room) (hdrv : room.driver = some prev) (hne : prev ≠ c)
    (hfresh : st.meta c = ⟨none, none, none⟩)
    (hd : jsTrim d ≠ "") (hopen : st.isOpen c = true) :
    (handleMessage st c (some (helloMsg "driver" d)) now).2
      = [Effect.close prev 1001 "driver replaced",
         Effect.send c (Frame.helloAck "driver" d none
           (truthyOpt ((st.routeMeta d).bind RouteEntry.routeId))
           (truthyOpt ((st.routeMeta d).bind RouteEntry.direction)))]
    ∧ (handleMessage st c (some (helloMsg "driver" d)) now).1.rooms d
        = some (Room.mk (some c) room.viewers) := by
  have hcp : c ≠ prev := Ne.symm hne
  have hval : validateHello (helloMsg "driver" d) = none := by
    simp [validateHello, helloMsg, jsTruthyObj, jsTruthy, jsObjType, strictStr,
      isNonBlankStr, JVal.get, List.lookup, hd]
  rw [handleMessage_hello st c (helloMsg "driver" d) now rfl rfl]
  unfold handleHello
  rw [hval]
  dsimp only
  rw [show (strField (helloMsg "driver" d) "role").getD "" = "driver" from rfl,
      show (strField (helloMsg "driver" d) "deviceId").getD "" = d from rfl,
      assign_driver_replace_eq st c prev d room hroom hdrv hne (by rw [hfresh])]
  simp [announced, helloMsg, JVal.get, List.lookup, mergedEntry, mergeRouteEntry,
    applyNameMerge, applyRouteMerge, sendJson, truthyOpt, upd, updMeta, hcp, hopen]

theorem C3_driver_replaced_no_info_witness :
    (stDrv1.rooms "bus-1" = some (Room.mk (some 1) []) ∧ (1 : Nat) ≠ 2
      ∧ stDrv1.meta 2 = ⟨none, none, none⟩ ∧ jsTrim "bus-1" ≠ ""
      ∧ stDrv1.isOpen 2 = true)
    ∧ ((handleMessage stDrv1 2 (some (helloMsg "driver" "bus-1")) 0).2
        = [Effect.close 1 1001 "driver replaced",
           Effect.send 2 (Frame.helloAck "driver" "bus-1" none
             (truthyOpt ((stDrv1.routeMeta "bus-1").bind RouteEntry.routeId))
             (truthyOpt ((stDrv1.routeMeta "bus-1").bind RouteEntry.direction)))]
      ∧ (handleMessage stDrv1 2 (some (helloMsg "driver" "bus-1")) 0).1.rooms "bus-1"
          = some (Room.mk (some 2) [])) :=
  ⟨⟨rfl, by decide, rfl, by decide, rfl⟩,
   C3_driver_replaced_no_info stDrv1 2 1 "bus-1" (Room.mk (some 1) []) 0
     rfl rfl (by decide) rfl (by decide) rfl⟩

/-- C10: a driver re-sending hello for the deviceId it already occupies is never
closed as replaced: the assign emits no effect at all, and the same connection
still holds the room's driver slot afterwards. -/
theorem C10_rehello_idempotent (st : ServerState) (c : Nat) (d : String)
    (room : Room) (rb : Option RateBucket)
    (hroom : st.rooms d = some room) (hdrv : room.driver = some c)
    (hmeta : st.meta c = ⟨some "driver", some d, rb⟩) (hd : d ≠ "") :
    (assignSocketToRoom st c d "driver").2 = []
    ∧ ∃ vs, (assignSocketToRoom st c d "driver").1.rooms d
        = some (Room.mk (some c) vs) := by
  by_cases hv : room.viewers = []
  · refine ⟨?_, [], ?_⟩ <;>
      simp [assignSocketToRoom, removeSocketFromRoom, hmeta, hd, hroom, hdrv, hv,
        ensureRoom, upd]
  · refine ⟨?_, room.viewers, ?_⟩ <;>
      simp [assignSocketToRoom, removeSocketFromRoom, hmeta, hd, hroom, hdrv, hv,
        ensureRoom, upd]

theorem C10_rehello_idempotent_witness :
    (stDrv1.rooms "bus-1" = some (Room.mk (some 1) [])
      ∧ stDrv1.meta 1 = ⟨some "driver", some "bus-1", none⟩ ∧ "bus-1" ≠ "")
    ∧ ((assignSocketToRoom stDrv1 1 "bus-1" "driver").2 = []
       ∧ ∃ vs, (assignSocketToRoom stDrv1 1 "bus-1" "driver").1.rooms "bus-1"
           = some (Room.mk (some 1) vs)) :=
  ⟨⟨rfl, rfl, by decide⟩,
   C10_rehello_idempotent stDrv1 1 "bus-1" (Room.mk (some 1) []) none
     rfl rfl rfl (by decide)⟩

theorem assign_driver_new_eq (st : ServerState) (c : Nat) (d : String)
    (hroom : st.rooms d = none) (hfresh : (st.meta c).deviceId = none) :
    assignSocketToRoom st c d "driver"
      = ({ st with
            rooms := upd (upd st.rooms d (some (Room.mk none []))) d
              (some (Room.mk (some c) [])),
            meta := updMeta st.meta c
              { st.meta c with deviceId := some d, role := some "driver" } },
         []) := by
  have hrm := remove_fresh st c hfresh
  unfold assignSocketToRoom
  rw [hrm]
  simp [ensureRoom, hroom, upd]

/-- C4: the hello-ack does NOT fall back to the remembered Device Memory
displayName: after a session that stored displayName "Alice" for "bus-1" ended,
a new driver hello for "bus-1" omitting displayName is acked without any
displayName, even though "Alice" is still in Device Memory — refuting the
claimed displayName fallback. -/
theorem C4_counterexample :
    stNamed.names "bus-1" = some "Alice"
    ∧ (handleMessage stNamed 2 (some (helloMsg "driver" "bus-1")) 0).2
        = [Effect.send 2 (Frame.helloAck "driver" "bus-1" none none none)] :=
  ⟨rfl, rfl⟩

theorem remove_meta (st : ServerState) (c : Nat) :
    (removeSocketFromRoom st c).meta = st.meta := by
  unfold removeSocketFromRoom
  repeat' split
  all_goals try rfl
  all_goals (dsimp only; split <;> rfl)

theorem remove_names (st : ServerState) (c : Nat) :
    (removeSocketFromRoom st c).names = st.names := by
  unfold removeSocketFromRoom
  repeat' split
  all_goals try rfl
  all_goals (dsimp only; split <;> rfl)

theorem remove_routeMeta (st : ServerState) (c : Nat) :
    (removeSocketFromRoom st c).routeMeta = st.routeMeta := by
  unfold removeSocketFromRoom
  repeat' split
  all_goals try rfl
  all_goals (dsimp only; split <;> rfl)

theorem remove_isOpen (st : ServerState) (c : Nat) :
    (removeSocketFromRoom st c).isOpen = st.isOpen := by
  unfold removeSocketFromRoom
  repeat' split
  all_goals try rfl
  all_goals (dsimp only; split <;> rfl)

theorem remove_latest_of_rooms_ne (st : ServerState) (c : Nat) (d : String) :
    (removeSocketFromRoom st c).rooms d = none → st.rooms d ≠ none →
    (removeSocketFromRoom st c).latestTelemetry d = none := by
  unfold removeSocketFromRoom
  cases hmd : (st.meta c).deviceId with
  | none => exact fun hgone hne => absurd hgone hne
  | some d2 =>
    dsimp only
    by_cases hd2 : d2 = ""
    · rw [if_pos hd2]
      exact fun hgone hne => absurd hgone hne
    · rw [if_neg hd2]
      cases hr2 : st.rooms d2 with
      | none => exact fun hgone hne => absurd hgone hne
      | some room0 =>
        dsimp only
        repeat' split
        all_goals intro hgone hne
        all_goals try simp only [upd] at hgone ⊢
        all_goals by_cases hdd : d = d2
        all_goals try (simp [hdd]; done)
        all_goals simp [hdd] at hgone
        all_goals exact absurd hgone hne

theorem remove_gone_latest (st : ServerState) (c : Nat) (d : String) (room : Room)
    (hroom : st.rooms d = some room)
    (hgone : (removeSocketFromRoom st c).rooms d = none) :
    (removeSocketFromRoom st c).latestTelemetry d = none :=
  remove_latest_of_rooms_ne st c d hgone (by simp [hroom])

theorem assign_viewer_new_eq (st : ServerState) (c : Nat) (d : String)
    (hroom : st.rooms d = none) (hsnap : st.latestTelemetry d = none)
    (hfresh : (st.meta c).deviceId = none) :
    assignSocketToRoom st c d "viewer"
      = ({ st with
            rooms := upd (upd st.rooms d (some (Room.mk none []))) d
              (some (Room.mk none [c])),
            meta := updMeta st.meta c
              { st.meta c with deviceId := some d, role := some "viewer" } },
         []) := by
  have hrm := remove_fresh st c hfresh
  unfold assignSocketToRoom
  rw [hrm]
  simp [ensureRoom, hroom, hsnap, upd]

/-- C7: a detach that leaves the room of a deviceId driver-less and viewer-less
deletes both the room and its telemetry snapshot, so a viewer hello for that
deviceId arriving afterwards receives no catch-up telemetry frame. -/
theorem C7_room_purge (st : ServerState) (c c2 : Nat) (d : String) (room : Room)
    (now : ℚ)
    (hroom : st.rooms d = some room)
    (hgone : (handleClose st c).rooms d = none)
    (hfresh : st.meta c2 = ⟨none, none, none⟩)
    (hd : jsTrim d ≠ "") :
    (handleClose st c).latestTelemetry d = none
    ∧ ∀ v p, Effect.send v (Frame.telemetry p)
        ∉ (handleMessage (handleClose st c) c2 (some (helloMsg "viewer" d)) now).2 := by
  have hlat : (handleClose st c).latestTelemetry d = none := by
    unfold handleClose at hgone ⊢
    exact remove_gone_latest _ c d room hroom hgone
  refine ⟨hlat, ?_⟩
  intro v p
  have hfresh2 : ((handleClose st c).meta c2).deviceId = none := by
    unfold handleClose
    rw [remove_meta]
    dsimp only
    rw [hfresh]
  have hval : validateHello (helloMsg "viewer" d) = none := by
    simp [validateHello, helloMsg, jsTruthyObj, jsTruthy, jsObjType, strictStr,
      isNonBlankStr, JVal.get, List.lookup, hd]
  rw [handleMessage_hello (handleClose st c) c2 (helloMsg "viewer" d) now rfl rfl]
  unfold handleHello
  rw [hval]
  dsimp only
  rw [show (strField (helloMsg "viewer" d) "role").getD "" = "viewer" from rfl,
      show (strField (helloMsg "viewer" d) "deviceId").getD "" = d from rfl,
      assign_viewer_new_eq (handleClose st c) c2 d hgone hlat hfresh2]
  cases hop : (handleClose st c).isOpen c2 <;>
    simp [announced, helloMsg, JVal.get, List.lookup, mergedEntry, mergeRouteEntry,
      applyNameMerge, applyRouteMerge, sendJson, truthyOpt, upd, updMeta, hop]

theorem C7_room_purge_witness :
    (stSnap.rooms "bus-1" = some (Room.mk none [5])
      ∧ (handleClose stSnap 5).rooms "bus-1" = none
      ∧ stSnap.meta 7 = ⟨none, none, none⟩ ∧ jsTrim "bus-1" ≠ ""
      ∧ stSnap.latestTelemetry "bus-1" = some pay1)
    ∧ ((handleClose stSnap 5).latestTelemetry "bus-1" = none
      ∧ Effect.send 6 (Frame.telemetry pay1)
          ∉ (handleMessage (handleClose stSnap 5) 7 (some (helloMsg "viewer" "bus-1")) 0).2) :=
  ⟨⟨rfl, rfl, rfl, by decide, rfl⟩,
   (C7_room_purge stSnap 5 7 "bus-1" (Room.mk none [5]) 0 rfl rfl rfl (by decide)).1,
   (C7_room_purge stSnap 5 7 "bus-1" (Room.mk none [5]) 0 rfl rfl rfl (by decide)).2
     6 pay1⟩

/-- C8: authorization violations leave the connection open: a non-driver sending
telemetry gets exactly the "Only drivers may send telemetry" error frame with the
state (including socket open status) untouched, and a driver whose telemetry
deviceId differs from its handshake-bound deviceId gets exactly the
"Driver must send telemetry for subscribed deviceId" error frame with the state
untouched; neither path emits a close. -/
theorem C8_authz_no_close (st : ServerState) (c : Nat) (msg : JVal) (now : ℚ)
    (hobj : jsTruthyObj msg = true)
    (hty : strictStr (msg.get "type") "telemetry" = true) :
    ((st.meta c).role ≠ some "driver" →
      handleMessage st c (some msg) now
        = (st, sendJson st c (Frame.error "Only drivers may send telemetry")))
    ∧ ((st.meta c).role = some "driver" → validateTelemetry msg = none →
        strField msg "deviceId" ≠ (st.meta c).deviceId →
      handleMessage st c (some msg) now
        = (st, sendJson st c
            (Frame.error "Driver must send telemetry for subscribed deviceId"))) := by
  constructor
  · intro hrole
    rw [handleMessage_telemetry st c msg now hobj hty]
    simp [handleTelemetry, hrole]
  · intro hrole hval hdev
    rw [handleMessage_telemetry st c msg now hobj hty]
    simp [handleTelemetry, hrole, hval, hdev]

theorem C8_authz_no_close_witness :
    (jsTruthyObj (telemetryMsg "bus-1" 29 (-82) 1000) = true
      ∧ (stViewer5.meta 5).role ≠ some "driver"
      ∧ (stDrv1.meta 1).role = some "driver"
      ∧ validateTelemetry (telemetryMsg "bus-2" 29 (-82) 1000) = none
      ∧ strField (telemetryMsg "bus-2" 29 (-82) 1000) "deviceId" ≠ (stDrv1.meta 1).deviceId)
    ∧ handleMessage stViewer5 5 (some (telemetryMsg "bus-1" 29 (-82) 1000)) 0
        = (stViewer5, sendJson stViewer5 5 (Frame.error "Only drivers may send telemetry"))
    ∧ handleMessage stDrv1 1 (some (telemetryMsg "bus-2" 29 (-82) 1000)) 0
        = (stDrv1, sendJson stDrv1 1
            (Frame.error "Driver must send telemetry for subscribed deviceId")) :=
  ⟨⟨rfl, by decide, rfl, rfl, by decide⟩,
   (C8_authz_no_close stViewer5 5 (telemetryMsg "bus-1" 29 (-82) 1000) 0 rfl rfl).1
     (by decide),
   (C8_authz_no_close stDrv1 1 (telemetryMsg "bus-2" 29 (-82) 1000) 0 rfl rfl).2
     rfl rfl (by decide)⟩

theorem isNonBlank_of_strField {msg : JVal} {k d : String}
    (hnb : isNonBlankStr msg k = true) (hdev : strField msg k = some d) :
    jsTrim d ≠ "" := by
  unfold isNonBlankStr at hnb
  unfold strField at hdev
  cases hv : msg.get k with
  | none => rw [hv] at hnb; cases hnb
  | some v =>
    rw [hv] at hnb hdev
    cases v with
    | jstr s =>
      simp only [Option.some.injEq] at hdev
      subst hdev
      simpa using hnb
    | jnull => cases hnb
    | jbool b => cases hnb
    | jnum n => cases hnb
    | jarr a => cases hnb
    | jobj f => cases hnb

/-- C5: the telemetry rate limiter is a continuous token bucket of capacity 5 per
driver connection: a consume first tops the bucket up by elapsed seconds times 5,
capped at 5, then takes 1 token when at least 1 is available; when fewer than 1
token is available the telemetry handler produces no effect at all (no reply
frame of any kind) and leaves everything but the connection's bucket unchanged. -/
theorem C5_rate_limiter (st : ServerState) (c : Nat) (msg : JVal) (now : ℚ)
    (b : RateBucket) (t : ℚ)
    (hrole : (st.meta c).role = some "driver")
    (hval : validateTelemetry msg = none)
    (hdev : strField msg "deviceId" = (st.meta c).deviceId)
    (hb : b = initRate (st.meta c).rate now)
    (ht : t = min TELEMETRY_LIMIT_PER_SEC
        (b.tokens + (now - b.last) / 1000 * TELEMETRY_LIMIT_PER_SEC)) :
    consumeRateToken (st.meta c).rate now
        = (if t < 1 then (⟨t, now⟩, false) else (⟨t - 1, now⟩, true))
    ∧ t ≤ TELEMETRY_LIMIT_PER_SEC
    ∧ (t < 1 →
        (handleMessage st c (some msg) now).2 = []
        ∧ (handleMessage st c (some msg) now).1.latestTelemetry = st.latestTelemetry
        ∧ (handleMessage st c (some msg) now).1.names = st.names
        ∧ (handleMessage st c (some msg) now).1.routeMeta = st.routeMeta
        ∧ (handleMessage st c (some msg) now).1.isOpen = st.isOpen) := by
  obtain ⟨hobj, hty, -⟩ := validateTelemetry_none_facts hval
  subst hb
  subst ht
  refine ⟨rfl, min_le_left _ _, ?_⟩
  intro hlt
  have hcrt : consumeRateToken (st.meta c).rate now
      = (⟨min TELEMETRY_LIMIT_PER_SEC
            ((initRate (st.meta c).rate now).tokens
              + (now - (initRate (st.meta c).rate now).last) / 1000
                * TELEMETRY_LIMIT_PER_SEC), now⟩, false) := by
    unfold consumeRateToken
    rw [if_pos hlt]
  rw [handleMessage_telemetry st c msg now hobj hty]
  unfold handleTelemetry
  rw [if_neg (by simp [hrole]), hval]
  try dsimp only
  rw [if_neg (by simp [hdev])]
  try dsimp only
  rw [hcrt]
  exact ⟨rfl, rfl, rfl, rfl, rfl⟩

theorem C5_rate_limiter_witness :
    ((stLowTokens.meta 0).role = some "driver"
      ∧ validateTelemetry (telemetryMsg "bus-1" 29 (-82) 1000) = none
      ∧ strField (telemetryMsg "bus-1" 29 (-82) 1000) "deviceId"
          = (stLowTokens.meta 0).deviceId
      ∧ (⟨1/2, 0⟩ : RateBucket) = initRate (stLowTokens.meta 0).rate 0
      ∧ ((1 : ℚ)/2) = min TELEMETRY_LIMIT_PER_SEC
          (((1 : ℚ)/2) + ((0 : ℚ) - 0) / 1000 * TELEMETRY_LIMIT_PER_SEC)
      ∧ ((1 : ℚ)/2) < 1)
    ∧ (handleMessage stLowTokens 0 (some (telemetryMsg "bus-1" 29 (-82) 1000)) 0).2 = []
    ∧ (handleMessage stLowTokens 0
        (some (telemetryMsg "bus-1" 29 (-82) 1000)) 0).1.latestTelemetry
        = stLowTokens.latestTelemetry :=
  ⟨⟨rfl, rfl, rfl, rfl,
    by norm_num [TELEMETRY_LIMIT_PER_SEC, min_def], by norm_num⟩,
   ((C5_rate_limiter stLowTokens 0 (telemetryMsg "bus-1" 29 (-82) 1000) 0
      ⟨1/2, 0⟩ (1/2) rfl rfl rfl rfl
      (by norm_num [TELEMETRY_LIMIT_PER_SEC, min_def])).2.2 (by norm_num)).1,
   ((C5_rate_limiter stLowTokens 0 (telemetryMsg "bus-1" 29 (-82) 1000) 0
      ⟨1/2, 0⟩ (1/2) rfl rfl rfl rfl
      (by norm_num [TELEMETRY_LIMIT_PER_SEC, min_def])).2.2 (by norm_num)).2.1⟩

theorem acceptTelemetry_spec (st1 : ServerState) (msg : JVal) :
    ∃ room,
      (acceptTelemetry st1 msg).1.latestTelemetry ((strField msg "deviceId").getD "")
          = some (telemetryPayloadOf st1 msg)
      ∧ (acceptTelemetry st1 msg).1.rooms ((strField msg "deviceId").getD "")
          = some room
      ∧ (acceptTelemetry st1 msg).2 = room.viewers.filterMap (fun v =>
          if st1.isOpen v then
            some (Effect.send v (Frame.telemetry (telemetryPayloadOf st1 msg)))
          else none)
      ∧ (acceptTelemetry st1 msg).1.isOpen = st1.isOpen
      ∧ (acceptTelemetry st1 msg).1.meta = st1.meta := by
  unfold acceptTelemetry ensureRoom
  cases hr : st1.rooms ((strField msg "deviceId").getD "") with
  | some r =>
    refine ⟨r, ?_, ?_, ?_, ?_, ?_⟩ <;> simp [hr, upd]
  | none =>
    refine ⟨Room.mk none [], ?_, ?_, ?_, ?_, ?_⟩ <;> simp [hr, upd]

theorem handleTelemetry_accepted (st : ServerState) (c : Nat) (msg : JVal) (now : ℚ)
    (hrole : (st.meta c).role = some "driver")
    (hval : validateTelemetry msg = none)
    (hdev : strField msg "deviceId" = (st.meta c).deviceId)
    (hacc : (consumeRateToken (st.meta c).rate now).2 = true) :
    handleTelemetry st c msg now
      = acceptTelemetry
          { st with meta := (updMeta st.meta c
              { st.meta c with
                rate := some (consumeRateToken (st.meta c).rate now).1 }) } msg := by
  unfold handleTelemetry
  rw [if_neg (by simp [hrole]), hval]
  try dsimp only
  rw [if_neg (by simp [hdev])]
  try dsimp only
  rw [if_neg (by simp [hacc])]

theorem assign_viewer_join_snap (st : ServerState) (c : Nat) (d : String)
    (room : Room) (p : TelemetryPayload)
    (hroom : st.rooms d = some room) (hsnap : st.latestTelemetry d = some p)
    (hfresh : (st.meta c).deviceId = none) (hopen : st.isOpen c = true) :
    Effect.send c (Frame.telemetry p) ∈ (assignSocketToRoom st c d "viewer").2 := by
  have hrm := remove_fresh st c hfresh
  unfold assignSocketToRoom
  rw [hrm]
  simp [ensureRoom, hroom, hsnap, sendJson, upd, hopen]

/-- C6: an accepted driver telemetry stores exactly the broadcast payload as the
snapshot (every effect of the step is a telemetry send of that payload), and a
viewer hello arriving afterwards for that deviceId immediately receives that
same stored payload as a catch-up frame. -/
theorem C6_viewer_catchup (st : ServerState) (cd cv : Nat) (msg : JVal) (d : String)
    (now now2 : ℚ)
    (hrole : (st.meta cd).role = some "driver")
    (hval : validateTelemetry msg = none)
    (hdev : strField msg "deviceId" = some d)
    (hdm : (st.meta cd).deviceId = some d)
    (hacc : (consumeRateToken (st.meta cd).rate now).2 = true)
    (hfresh : st.meta cv = ⟨none, none, none⟩) (hcv : cv ≠ cd)
    (hopen : st.isOpen cv = true) :
    ∃ p, (handleMessage st cd (some msg) now).1.latestTelemetry d = some p
      ∧ (∀ e ∈ (handleMessage st cd (some msg) now).2,
           ∃ v, e = Effect.send v (Frame.telemetry p))
      ∧ Effect.send cv (Frame.telemetry p)
          ∈ (handleMessage (handleMessage st cd (some msg) now).1 cv
              (some (helloMsg "viewer" d)) now2).2 := by
  obtain ⟨hobj, hty, hnb⟩ := validateTelemetry_none_facts hval
  have hd : jsTrim d ≠ "" := isNonBlank_of_strField hnb hdev
  set stm : ServerState := { st with meta := (updMeta st.meta cd
      { st.meta cd with rate := some (consumeRateToken (st.meta cd).rate now).1 }) }
    with hstm
  have hstep : handleMessage st cd (some msg) now = acceptTelemetry stm msg := by
    rw [handleMessage_telemetry st cd msg now hobj hty]
    exact handleTelemetry_accepted st cd msg now hrole hval (by rw [hdev, hdm]) hacc
  obtain ⟨room, hl, hr, heff, hio, hm⟩ := acceptTelemetry_spec stm msg
  rw [hdev] at hl hr
  simp only [Option.getD_some] at hl hr
  rw [hstep]
  refine ⟨telemetryPayloadOf stm msg, hl, ?_, ?_⟩
  · intro e he
    rw [heff] at he
    simp only [List.mem_filterMap] at he
    obtain ⟨v, -, hv⟩ := he
    by_cases hov : stm.isOpen v
    · rw [if_pos hov] at hv
      exact ⟨v, (Option.some_injective _ hv).symm⟩
    · rw [if_neg hov] at hv
      cases hv
  · have hval2 : validateHello (helloMsg "viewer" d) = none := by
      simp [validateHello, helloMsg, jsTruthyObj, jsTruthy, jsObjType, strictStr,
        isNonBlankStr, JVal.get, List.lookup, hd]
    have hfresh2 : (((acceptTelemetry stm msg).1).meta cv).deviceId = none := by
      rw [hm, hstm]
      simp [updMeta, hcv, hfresh]
    have hopen2 : ((acceptTelemetry stm msg).1).isOpen cv = true := by
      rw [hio, hstm]
      exact hopen
    rw [handleMessage_hello _ cv (helloMsg "viewer" d) now2 rfl rfl]
    unfold handleHello
    rw [hval2]
    dsimp only
    rw [show (strField (helloMsg "viewer" d) "role").getD "" = "viewer" from rfl,
        show (strField (helloMsg "viewer" d) "deviceId").getD "" = d from rfl]
    refine List.mem_append_left _ ?_
    exact assign_viewer_join_snap _ cv d room (telemetryPayloadOf stm msg)
      hr hl hfresh2 hopen2

theorem C6_viewer_catchup_witness :
    ((stDrv1.meta 1).role = some "driver"
      ∧ validateTelemetry (telemetryMsg "bus-1" 29 (-82) 1000) = none
      ∧ strField (telemetryMsg "bus-1" 29 (-82) 1000) "deviceId" = some "bus-1"
      ∧ (stDrv1.meta 1).deviceId = some "bus-1"
      ∧ (consumeRateToken (stDrv1.meta 1).rate 0).2 = true
      ∧ stDrv1.meta 3 = ⟨none, none, none⟩ ∧ (3 : Nat) ≠ 1 ∧ stDrv1.isOpen 3 = true)
    ∧ ∃ p, (handleMessage stDrv1 1
          (some (telemetryMsg "bus-1" 29 (-82) 1000)) 0).1.latestTelemetry "bus-1"
          = some p
      ∧ (∀ e ∈ (handleMessage stDrv1 1 (some (telemetryMsg "bus-1" 29 (-82) 1000)) 0).2,
           ∃ v, e = Effect.send v (Frame.telemetry p))
      ∧ Effect.send 3 (Frame.telemetry p)
          ∈ (handleMessage
              (handleMessage stDrv1 1 (some (telemetryMsg "bus-1" 29 (-82) 1000)) 0).1 3
              (some (helloMsg "viewer" "bus-1")) 0).2 := by
  have hacc : (consumeRateToken (stDrv1.meta 1).rate 0).2 = true := by
    show (consumeRateToken none 0).2 = true
    norm_num [consumeRateToken, initRate, TELEMETRY_LIMIT_PER_SEC, min_self]
  exact ⟨⟨rfl, rfl, rfl, rfl, hacc, rfl, by decide, rfl⟩,
    C6_viewer_catchup stDrv1 1 3 (telemetryMsg "bus-1" 29 (-82) 1000) "bus-1" 0 0
      rfl rfl rfl rfl hacc rfl (by decide) rfl⟩

theorem ensureRoom_names (st : ServerState) (d : String) :
    (ensureRoom st d).1.names = st.names := by
  unfold ensureRoom
  split <;> rfl

theorem ensureRoom_routeMeta (st : ServerState) (d : String) :
    (ensureRoom st d).1.routeMeta = st.routeMeta := by
  unfold ensureRoom
  split <;> rfl

theorem assign_names (st : ServerState) (c : Nat) (d role : String) :
    (assignSocketToRoom st c d role).1.names = st.names := by
  unfold assignSocketToRoom
  cases her : ensureRoom (removeSocketFromRoom st c) d with
  | mk st2 room =>
    have h2 : st2.names = st.names := by
      have h3 := ensureRoom_names (removeSocketFromRoom st c) d
      rw [her] at h3
      simpa [remove_names] using h3
    dsimp only
    repeat' split
    all_goals simp [closeSock, her, h2]

theorem assign_routeMeta (st : ServerState) (c : Nat) (d role : String) :
    (assignSocketToRoom st c d role).1.routeMeta = st.routeMeta := by
  unfold assignSocketToRoom
  cases her : ensureRoom (removeSocketFromRoom st c) d with
  | mk st2 room =>
    have h2 : st2.routeMeta = st.routeMeta := by
      have h3 := ensureRoom_routeMeta (removeSocketFromRoom st c) d
      rw [her] at h3
      simpa [remove_routeMeta] using h3
    dsimp only
    repeat' split
    all_goals simp [closeSock, her, h2]

theorem acceptTelemetry_names (st1 : ServerState) (msg : JVal) :
    (acceptTelemetry st1 msg).1.names
      = applyNameMerge st1.names ((strField msg "deviceId").getD "")
          (announced msg "displayName") := by
  unfold acceptTelemetry ensureRoom
  cases hr : st1.rooms ((strField msg "deviceId").getD "") with
  | some r => simp [hr]
  | none => simp [hr]

theorem acceptTelemetry_routeMeta (st1 : ServerState) (msg : JVal) :
    (acceptTelemetry st1 msg).1.routeMeta
      = applyRouteMerge st1.routeMeta ((strField msg "deviceId").getD "")
          (announced msg "routeId") (announced msg "direction") := by
  unfold acceptTelemetry ensureRoom
  cases hr : st1.rooms ((strField msg "deviceId").getD "") with
  | some r => simp [hr]
  | none => simp [hr]

theorem handleHello_names (st : ServerState) (c : Nat) (msg : JVal) :
    (handleHello st c msg).1.names = st.names
    ∨ ∃ d0, (handleHello st c msg).1.names
        = applyNameMerge st.names d0 (announced msg "displayName") := by
  unfold handleHello
  cases hv : validateHello msg with
  | some e => exact Or.inl rfl
  | none =>
    dsimp only
    refine Or.inr ⟨(strField msg "deviceId").getD "", ?_⟩
    simp [assign_names]

theorem handleHello_routeMeta (st : ServerState) (c : Nat) (msg : JVal) :
    (handleHello st c msg).1.routeMeta = st.routeMeta
    ∨ ∃ d0, (handleHello st c msg).1.routeMeta
        = applyRouteMerge st.routeMeta d0
            (announced msg "routeId") (announced msg "direction") := by
  unfold handleHello
  cases hv : validateHello msg with
  | some e => exact Or.inl rfl
  | none =>
    dsimp only
    refine Or.inr ⟨(strField msg "deviceId").getD "", ?_⟩
    simp [assign_routeMeta]

theorem handleTelemetry_names (st : ServerState) (c : Nat) (msg : JVal) (now : ℚ) :
    (handleTelemetry st c msg now).1.names = st.names
    ∨ ∃ d0, (handleTelemetry st c msg now).1.names
        = applyNameMerge st.names d0 (announced msg "displayName") := by
  unfold handleTelemetry
  by_cases h1 : (st.meta c).role ≠ some "driver"
  · rw [if_pos h1]; exact Or.inl rfl
  · rw [if_neg h1]
    cases hv : validateTelemetry msg with
    | some e => exact Or.inl rfl
    | none =>
      dsimp only
      by_cases h2 : strField msg "deviceId" ≠ (st.meta c).deviceId
      · rw [if_pos h2]; exact Or.inl rfl
      · rw [if_neg h2]
        try dsimp only
        by_cases h3 : (consumeRateToken (st.meta c).rate now).2 = false
        · rw [if_pos h3]; exact Or.inl rfl
        · rw [if_neg h3]
          refine Or.inr ⟨(strField msg "deviceId").getD "", ?_⟩
          rw [acceptTelemetry_names]

theorem handleTelemetry_routeMeta (st : ServerState) (c : Nat) (msg : JVal) (now : ℚ) :
    (handleTelemetry st c msg now).1.routeMeta = st.routeMeta
    ∨ ∃ d0, (handleTelemetry st c msg now).1.routeMeta
        = applyRouteMerge st.routeMeta d0
            (announced msg "routeId") (announced msg "direction") := by
  unfold handleTelemetry
  by_cases h1 : (st.meta c).role ≠ some "driver"
  · rw [if_pos h1]; exact Or.inl rfl
  · rw [if_neg h1]
    cases hv : validateTelemetry msg with
    | some e => exact Or.inl rfl
    | none =>
      dsimp only
      by_cases h2 : strField msg "deviceId" ≠ (st.meta c).deviceId
      · rw [if_pos h2]; exact Or.inl rfl
      · rw [if_neg h2]
        try dsimp only
        by_cases h3 : (consumeRateToken (st.meta c).rate now).2 = false
        · rw [if_pos h3]; exact Or.inl rfl
        · rw [if_neg h3]
          refine Or.inr ⟨(strField msg "deviceId").getD "", ?_⟩
          rw [acceptTelemetry_routeMeta]

theorem handleMessage_names (st : ServerState) (c : Nat) (raw : Option JVal) (now : ℚ) :
    (handleMessage st c raw now).1.names = st.names
    ∨ ∃ msg d0, raw = some msg
        ∧ (handleMessage st c raw now).1.names
            = applyNameMerge st.names d0 (announced msg "displayName") := by
  cases raw with
  | none => exact Or.inl rfl
  | some msg =>
    unfold handleMessage
    dsimp only
    by_cases hobj : jsTruthyObj msg = true
    · rw [if_neg (by simp [hobj])]
      by_cases hh : strictStr (msg.get "type") "hello" = true
      · rw [if_pos (by simp [hh])]
        rcases handleHello_names st c msg with h | ⟨d0, h⟩
        · exact Or.inl h
        · exact Or.inr ⟨msg, d0, rfl, h⟩
      · rw [if_neg (by simp [hh])]
        by_cases ht : strictStr (msg.get "type") "telemetry" = true
        · rw [if_pos (by simp [ht])]
          rcases handleTelemetry_names st c msg now with h | ⟨d0, h⟩
          · exact Or.inl h
          · exact Or.inr ⟨msg, d0, rfl, h⟩
        · rw [if_neg (by simp [ht])]
          exact Or.inl rfl
    · rw [if_pos (by simp [hobj])]
      exact Or.inl rfl

theorem handleMessage_routeMeta (st : ServerState) (c : Nat) (raw : Option JVal)
    (now : ℚ) :
    (handleMessage st c raw now).1.routeMeta = st.routeMeta
    ∨ ∃ msg d0, raw = some msg
        ∧ (handleMessage st c raw now).1.routeMeta
            = applyRouteMerge st.routeMeta d0
                (announced msg "routeId") (announced msg "direction") := by
  cases raw with
  | none => exact Or.inl rfl
  | some msg =>
    unfold handleMessage
    dsimp only
    by_cases hobj : jsTruthyObj msg = true
    · rw [if_neg (by simp [hobj])]
      by_cases hh : strictStr (msg.get "type") "hello" = true
      · rw [if_pos (by simp [hh])]
        rcases handleHello_routeMeta st c msg with h | ⟨d0, h⟩
        · exact Or.inl h
        · exact Or.inr ⟨msg, d0, rfl, h⟩
      · rw [if_neg (by simp [hh])]
        by_cases ht : strictStr (msg.get "type") "telemetry" = true
        · rw [if_pos (by simp [ht])]
          rcases handleTelemetry_routeMeta st c msg now with h | ⟨d0, h⟩
          · exact Or.inl h
          · exact Or.inr ⟨msg, d0, rfl, h⟩
        · rw [if_neg (by simp [ht])]
          exact Or.inl rfl
    · rw [if_pos (by simp [hobj])]
      exact Or.inl rfl

theorem announced_cases (msg : JVal) (k : String) :
    announced msg k = "" ∨ ∃ t, announced msg k = jsTrim t := by
  unfold announced
  split
  · exact Or.inr ⟨_, rfl⟩
  · exact Or.inl rfl

theorem applyNameMerge_inv {m : String → Option String} {d0 nm : String}
    (h1 : ∀ d s, m d = some s → StoredStr s)
    (hnm : nm = "" ∨ ∃ t, nm = jsTrim t) :
    ∀ d s, applyNameMerge m d0 nm d = some s → StoredStr s := by
  intro d s hs
  unfold applyNameMerge at hs
  split at hs
  · rename_i hne
    simp only [upd] at hs
    split at hs
    · injection hs with hs
      subst hs
      rcases hnm with h | ⟨t, ht⟩
      · exact absurd h hne
      · exact ⟨hne, t, ht⟩
    · exact h1 d s hs
  · exact h1 d s hs

theorem applyRouteMerge_inv {m : String → Option RouteEntry} {d0 r dir : String}
    (h2 : ∀ d e, m d = some e →
      (∀ s, e.routeId = some s → StoredStr s)
      ∧ (∀ s, e.direction = some s → StoredStr s))
    (hr : r = "" ∨ ∃ t, r = jsTrim t) (hdir : dir = "" ∨ ∃ t, dir = jsTrim t) :
    ∀ d e, applyRouteMerge m d0 r dir d = some e →
      (∀ s, e.routeId = some s → StoredStr s)
      ∧ (∀ s, e.direction = some s → StoredStr s) := by
  intro d e he
  unfold applyRouteMerge at he
  cases hme : mergeRouteEntry (m d0) r dir with
  | none => rw [hme] at he; exact h2 d e he
  | some e0 =>
    rw [hme] at he
    dsimp only at he
    simp only [upd] at he
    by_cases hdd : d = d0
    · rw [if_pos hdd] at he
      injection he with he
      subst he
      unfold mergeRouteEntry at hme
      split at hme
      · injection hme with hme
        subst hme
        constructor
        · intro s hsr
          dsimp only at hsr
          split at hsr
          · rename_i hrne
            injection hsr with hsr
            subst hsr
            rcases hr with h | ⟨t, ht⟩
            · exact absurd h hrne
            · exact ⟨hrne, t, ht⟩
          · cases hb : m d0 with
            | none => rw [hb] at hsr; cases hsr
            | some e1 =>
              rw [hb] at hsr
              simp only [Option.some_bind] at hsr
              exact (h2 d0 e1 hb).1 s hsr
        · intro s hsd
          dsimp only at hsd
          split at hsd
          · rename_i hdne
            injection hsd with hsd
            subst hsd
            rcases hdir with h | ⟨t, ht⟩
            · exact absurd h hdne
            · exact ⟨hdne, t, ht⟩
          · cases hb : m d0 with
            | none => rw [hb] at hsd; cases hsd
            | some e1 =>
              rw [hb] at hsd
              simp only [Option.some_bind] at hsd
              exact (h2 d0 e1 hb).2 s hsd
      · cases hme
    · rw [if_neg hdd] at he
      exact h2 d e he

theorem applyNameMerge_blank (m : String → Option String) (d0 : String) :
    applyNameMerge m d0 "" = m := by
  unfold applyNameMerge
  simp

theorem applyRouteMerge_bind_routeId_blank (m : String → Option RouteEntry)
    (d0 dir d2 : String) :
    ((applyRouteMerge m d0 "" dir) d2).bind RouteEntry.routeId
      = (m d2).bind RouteEntry.routeId := by
  unfold applyRouteMerge
  cases hme : mergeRouteEntry (m d0) "" dir with
  | none => rfl
  | some e =>
    have he : e.routeId = (m d0).bind RouteEntry.routeId := by
      unfold mergeRouteEntry at hme
      split at hme
      · injection hme with hme
        subst hme
        simp
      · cases hme
    dsimp only
    simp only [upd]
    by_cases hdd : d2 = d0
    · rw [if_pos hdd, hdd]
      simp [he]
    · rw [if_neg hdd]

theorem applyRouteMerge_bind_direction_blank (m : String → Option RouteEntry)
    (d0 r d2 : String) :
    ((applyRouteMerge m d0 r "") d2).bind RouteEntry.direction
      = (m d2).bind RouteEntry.direction := by
  unfold applyRouteMerge
  cases hme : mergeRouteEntry (m d0) r "" with
  | none => rfl
  | some e =>
    have he : e.direction = (m d0).bind RouteEntry.direction := by
      unfold mergeRouteEntry at hme
      split at hme
      · injection hme with hme
        subst hme
        simp
      · cases hme
    dsimp only
    simp only [upd]
    by_cases hdd : d2 = d0
    · rw [if_pos hdd, hdd]
      simp [he]
    · rw [if_neg hdd]

/-- C9: whitespace-only optional metadata is treated as absent: every value the
Device Memory maps (names, routeMeta) ever hold is a non-empty trimmed string,
and a hello or telemetry message whose displayName / routeId / direction trims
to the empty string does not overwrite the corresponding remembered field. -/
theorem C9_device_memory (st : ServerState) (c : Nat) (raw : Option JVal) (now : ℚ)
    (hinv : DMInv st) :
    DMInv (handleMessage st c raw now).1
    ∧ (∀ msg, raw = some msg → announced msg "displayName" = "" →
        (handleMessage st c raw now).1.names = st.names)
    ∧ (∀ msg d2, raw = some msg → announced msg "routeId" = "" →
        ((handleMessage st c raw now).1.routeMeta d2).bind RouteEntry.routeId
          = (st.routeMeta d2).bind RouteEntry.routeId)
    ∧ (∀ msg d2, raw = some msg → announced msg "direction" = "" →
        ((handleMessage st c raw now).1.routeMeta d2).bind RouteEntry.direction
          = (st.routeMeta d2).bind RouteEntry.direction) := by
  obtain ⟨hn, hr⟩ := hinv
  refine ⟨⟨?_, ?_⟩, ?_, ?_, ?_⟩
  · rcases handleMessage_names st c raw now with h | ⟨msg, d0, -, h⟩
    · rw [h]; exact hn
    · rw [h]; exact applyNameMerge_inv hn (announced_cases msg "displayName")
  · rcases handleMessage_routeMeta st c raw now with h | ⟨msg, d0, -, h⟩
    · rw [h]; exact hr
    · rw [h]
      exact applyRouteMerge_inv hr (announced_cases msg "routeId")
        (announced_cases msg "direction")
  · intro msg hraw hbl
    rcases handleMessage_names st c raw now with h | ⟨msg2, d0, hraw2, h⟩
    · exact h
    · rw [hraw] at hraw2
      injection hraw2 with he
      subst he
      rw [h, hbl, applyNameMerge_blank]
  · intro msg d2 hraw hbl
    rcases handleMessage_routeMeta st c raw now with h | ⟨msg2, d0, hraw2, h⟩
    · rw [h]
    · rw [hraw] at hraw2
      injection hraw2 with he
      subst he
      rw [h, hbl, applyRouteMerge_bind_routeId_blank]
  · intro msg d2 hraw hbl
    rcases handleMessage_routeMeta st c raw now with h | ⟨msg2, d0, hraw2, h⟩
    · rw [h]
    · rw [hraw] at hraw2
      injection hraw2 with he
      subst he
      rw [h, hbl, applyRouteMerge_bind_direction_blank]

theorem C9_device_memory_witness :
    DMInv stEmpty
    ∧ (DMInv (handleMessage stEmpty 1 (some helloFullMsg) 0).1
      ∧ (∀ msg, some helloFullMsg = some msg → announced msg "displayName" = "" →
          (handleMessage stEmpty 1 (some helloFullMsg) 0).1.names = stEmpty.names)
      ∧ (∀ msg d2, some helloFullMsg = some msg → announced msg "routeId" = "" →
          ((handleMessage stEmpty 1 (some helloFullMsg) 0).1.routeMeta d2).bind
              RouteEntry.routeId
            = (stEmpty.routeMeta d2).bind RouteEntry.routeId)
      ∧ (∀ msg d2, some helloFullMsg = some msg → announced msg "direction" = "" →
          ((handleMessage stEmpty 1 (some helloFullMsg) 0).1.routeMeta d2).bind
              RouteEntry.direction
            = (stEmpty.routeMeta d2).bind RouteEntry.direction)) := by
  have hinv : DMInv stEmpty := by
    constructor <;> intro d x h <;> simp [stEmpty, initialState] at h
  exact ⟨hinv, C9_device_memory stEmpty 1 (some helloFullMsg) 0 hinv⟩

theorem mem_sendJson_error {st : ServerState} {c v : Nat} {e e0 : String}
    (h : Effect.send v (Frame.error e) ∈ sendJson st c (Frame.error e0)) :
    e = e0 := by
  unfold sendJson at h
  split at h
  · simp at h
    exact h.2
  · cases h

theorem assign_no_error (st : ServerState) (c : Nat) (d role : String) (v : Nat)
    (e : String) :
    Effect.send v (Frame.error e) ∉ (assignSocketToRoom st c d role).2 := by
  unfold assignSocketToRoom
  cases her : ensureRoom (removeSocketFromRoom st c) d with
  | mk st2 room =>
    dsimp only
    repeat' split
    all_goals simp only [closeSock, sendJson]
    all_goals try split
    all_goals simp

theorem handleHello_error_char (st : ServerState) (c : Nat) (msg : JVal)
    (v : Nat) (e : String) :
    Effect.send v (Frame.error e) ∈ (handleHello st c msg).2 →
      handleHello st c msg = (st, sendJson st c (Frame.error e)) := by
  unfold handleHello
  cases hv : validateHello msg with
  | some e0 =>
    intro h
    dsimp only at h ⊢
    have he := mem_sendJson_error h
    subst he
    rfl
  | none =>
    intro h
    dsimp only at h
    rw [List.mem_append] at h
    rcases h with h | h
    · exact absurd h (assign_no_error st c _ _ v e)
    · unfold sendJson at h
      split at h
      · simp at h
      · cases h

theorem handleTelemetry_error_char (st : ServerState) (c : Nat) (msg : JVal)
    (now : ℚ) (v : Nat) (e : String) :
    Effect.send v (Frame.error e) ∈ (handleTelemetry st c msg now).2 →
      handleTelemetry st c msg now = (st, sendJson st c (Frame.error e)) := by
  unfold handleTelemetry
  by_cases h1 : (st.meta c).role ≠ some "driver"
  · rw [if_pos h1]
    intro h
    have he := mem_sendJson_error h
    subst he
    rfl
  · rw [if_neg h1]
    cases hv : validateTelemetry msg with
    | some e0 =>
      intro h
      dsimp only at h ⊢
      have he := mem_sendJson_error h
      subst he
      rfl
    | none =>
      dsimp only
      by_cases h2 : strField msg "deviceId" ≠ (st.meta c).deviceId
      · rw [if_pos h2]
        intro h
        have he := mem_sendJson_error h
        subst he
        rfl
      · rw [if_neg h2]
        try dsimp only
        by_cases h3 : (consumeRateToken (st.meta c).rate now).2 = false
        · rw [if_pos h3]
          intro h
          cases h
        · rw [if_neg h3]
          intro h
          obtain ⟨room, -, -, heff, -, -⟩ := acceptTelemetry_spec _ msg
          rw [heff] at h
          simp only [List.mem_filterMap] at h
          obtain ⟨w, -, hw⟩ := h
          split at hw
          · simp at hw
          · cases hw

/-- C2 (amended): every first message that fails hello validation — malformed
JSON, a non-object payload, a wrong type, a role outside driver and viewer, or a
blank deviceId — is answered with an error frame and the state, socket open
status included, is left completely unchanged; moreover, on any connection and
any input whatsoever, whenever the server replies with an error frame that
reply is the only effect and the state is unchanged, so no bad-input case
forcibly terminates the connection. -/
theorem C2_bad_input_no_close (st : ServerState) (c : Nat) (raw : Option JVal)
    (now : ℚ) :
    ((st.meta c).role = none →
      (∀ msg, raw = some msg → validateHello msg ≠ none) →
      ∃ e, handleMessage st c raw now = (st, sendJson st c (Frame.error e)))
    ∧ (∀ v e, Effect.send v (Frame.error e) ∈ (handleMessage st c raw now).2 →
        handleMessage st c raw now = (st, sendJson st c (Frame.error e))) := by
  constructor
  · intro hrole hbad
    cases raw with
    | none => exact ⟨"Invalid JSON", rfl⟩
    | some msg =>
      unfold handleMessage
      dsimp only
      by_cases hobj : jsTruthyObj msg = true
      · rw [if_neg (by simp [hobj])]
        by_cases hh : strictStr (msg.get "type") "hello" = true
        · rw [if_pos (by simp [hh])]
          cases hv : validateHello msg with
          | some e0 =>
            refine ⟨e0, ?_⟩
            unfold handleHello
            rw [hv]
          | none => exact absurd hv (hbad msg rfl)
        · rw [if_neg (by simp [hh])]
          by_cases ht : strictStr (msg.get "type") "telemetry" = true
          · rw [if_pos (by simp [ht])]
            refine ⟨"Only drivers may send telemetry", ?_⟩
            unfold handleTelemetry
            rw [if_pos (by simp [hrole])]
          · rw [if_neg (by simp [ht])]
            exact ⟨"Unsupported message type", rfl⟩
      · rw [if_pos (by simp [hobj])]
        exact ⟨"Payload must be object", rfl⟩
  · intro v e h
    cases raw with
    | none =>
      have he := mem_sendJson_error h
      subst he
      rfl
    | some msg =>
      unfold handleMessage at h ⊢
      dsimp only at h ⊢
      by_cases hobj : jsTruthyObj msg = true
      · rw [if_neg (by simp [hobj])] at h ⊢
        by_cases hh : strictStr (msg.get "type") "hello" = true
        · rw [if_pos (by simp [hh])] at h ⊢
          exact handleHello_error_char st c msg v e h
        · rw [if_neg (by simp [hh])] at h ⊢
          by_cases ht : strictStr (msg.get "type") "telemetry" = true
          · rw [if_pos (by simp [ht])] at h ⊢
            exact handleTelemetry_error_char st c msg now v e h
          · rw [if_neg (by simp [ht])] at h ⊢
            have he := mem_sendJson_error h
            subst he
            rfl
      · rw [if_pos (by simp [hobj])] at h ⊢
        have he := mem_sendJson_error h
        subst he
        rfl

theorem C2_bad_input_no_close_witness :
    ((stEmpty.meta 0).role = none
      ∧ validateHello (helloMsg "pilot" "bus-1") ≠ none
      ∧ Effect.send 0 (Frame.error "Role must be driver or viewer")
          ∈ (handleMessage stEmpty 0 (some (helloMsg "pilot" "bus-1")) 0).2)
    ∧ (∃ e, handleMessage stEmpty 0 (some (helloMsg "pilot" "bus-1")) 0
        = (stEmpty, sendJson stEmpty 0 (Frame.error e)))
    ∧ handleMessage stEmpty 0 (some (helloMsg "pilot" "bus-1")) 0
        = (stEmpty,
           sendJson stEmpty 0 (Frame.error "Role must be driver or viewer")) :=
  ⟨⟨rfl, by decide, by decide⟩,
   (C2_bad_input_no_close stEmpty 0 (some (helloMsg "pilot" "bus-1")) 0).1 rfl
     (by intro msg h; injection h with h2; subst h2; decide),
   (C2_bad_input_no_close stEmpty 0 (some (helloMsg "pilot" "bus-1")) 0).2 0
     "Role must be driver or viewer" (by decide)⟩

theorem mergedEntry_routeId (prev : Option RouteEntry) (r dir : String) :
    truthyOpt ((mergedEntry prev r dir).bind RouteEntry.routeId)
      = if r ≠ "" then some r
        else truthyOpt (prev.bind RouteEntry.routeId) := by
  unfold mergedEntry mergeRouteEntry
  by_cases hr : r = "" <;> by_cases hd : dir = "" <;>
    simp [hr, hd, truthyOpt]

theorem mergedEntry_direction (prev : Option RouteEntry) (r dir : String) :
    truthyOpt ((mergedEntry prev r dir).bind RouteEntry.direction)
      = if dir ≠ "" then some dir
        else truthyOpt (prev.bind RouteEntry.direction) := by
  unfold mergedEntry mergeRouteEntry
  by_cases hr : r = "" <;> by_cases hd : dir = "" <;>
    simp [hr, hd, truthyOpt]

/-- C4 (amended): for every accepted hello — either role, any prior state — the
hello-ack echoes the resolved role and deviceId; its routeId and direction fall
back to the remembered Device Memory values when the hello omits or blanks them
(the announced trimmed value wins otherwise); its displayName is present only
when the hello itself announced a non-blank one — a displayName remembered from
an earlier session stays in Device Memory but is not returned in the ack. -/
theorem C4_hello_ack_fields (st : ServerState) (c : Nat) (msg : JVal) (now : ℚ)
    (hobj : jsTruthyObj msg = true)
    (hty : strictStr (msg.get "type") "hello" = true)
    (hval : validateHello msg = none) :
    (handleMessage st c (some msg) now).2
      = (assignSocketToRoom st c ((strField msg "deviceId").getD "")
          ((strField msg "role").getD "")).2
        ++ sendJson (handleMessage st c (some msg) now).1 c
            (Frame.helloAck ((strField msg "role").getD "")
              ((strField msg "deviceId").getD "")
              (if announced msg "displayName" ≠ ""
                then some (announced msg "displayName") else none)
              (if announced msg "routeId" ≠ "" then some (announced msg "routeId")
                else truthyOpt
                  ((st.routeMeta ((strField msg "deviceId").getD "")).bind
                    RouteEntry.routeId))
              (if announced msg "direction" ≠ ""
                then some (announced msg "direction")
                else truthyOpt
                  ((st.routeMeta ((strField msg "deviceId").getD "")).bind
                    RouteEntry.direction)))
    ∧ (announced msg "displayName" = "" → ∀ nm,
        st.names ((strField msg "deviceId").getD "") = some nm →
        (handleMessage st c (some msg) now).1.names
            ((strField msg "deviceId").getD "") = some nm) := by
  rw [handleMessage_hello st c msg now hobj hty]
  unfold handleHello
  rw [hval]
  dsimp only
  constructor
  · rw [mergedEntry_routeId, mergedEntry_direction, assign_routeMeta]
  · intro hbl nm hnm
    show (applyNameMerge
        (assignSocketToRoom st c ((strField msg "deviceId").getD "")
          ((strField msg "role").getD "")).1.names
        ((strField msg "deviceId").getD "")
        (announced msg "displayName")) ((strField msg "deviceId").getD "")
      = some nm
    rw [hbl, applyNameMerge_blank, assign_names]
    exact hnm

theorem C4_hello_ack_fields_witness :
    (jsTruthyObj (helloMsg "driver" "bus-1") = true
      ∧ strictStr ((helloMsg "driver" "bus-1").get "type") "hello" = true
      ∧ validateHello (helloMsg "driver" "bus-1") = none
      ∧ announced (helloMsg "driver" "bus-1") "displayName" = ""
      ∧ stMemoryDir.names "bus-1" = some "Alice"
      ∧ stMemoryDir.routeMeta "bus-1" = some ⟨some "R7", some "north"⟩)
    ∧ (handleMessage stMemoryDir 2 (some (helloMsg "driver" "bus-1")) 0).2
        = (assignSocketToRoom stMemoryDir 2 "bus-1" "driver").2
          ++ sendJson
              (handleMessage stMemoryDir 2 (some (helloMsg "driver" "bus-1")) 0).1 2
              (Frame.helloAck "driver" "bus-1" none (some "R7") (some "north"))
    ∧ (handleMessage stMemoryDir 2 (some (helloMsg "driver" "bus-1")) 0).1.names
        "bus-1" = some "Alice" :=
  ⟨⟨rfl, rfl, rfl, rfl, rfl, rfl⟩,
   (C4_hello_ack_fields stMemoryDir 2 (helloMsg "driver" "bus-1") 0 rfl rfl rfl).1,
   (C4_hello_ack_fields stMemoryDir 2 (helloMsg "driver" "bus-1") 0 rfl rfl rfl).2
     rfl "Alice" rfl⟩

end NextStop
